import Mathlib

/-!
# Verification of the inFakt invoicing client

A shallow embedding in Lean 4 of the two source files of the repository,
`client.py` and `invoice.py`, together with theorems settling the frozen
claims about them.

Modelling conventions:
* Python/JSON values are modelled by the inductive type `Val` (dicts as
  association lists, strings, numbers, booleans and `None`).  Python
  numbers (`int` and `float`) are modelled as exact rationals `ℚ`;
  float rounding is outside the model.
* Calendar dates (`datetime.date`) are `Date` records with an integer
  year; `datetime.timedelta` addition is modelled by `addDays`, a
  proleptic Gregorian day-by-day walk (month and year carrying exactly
  as the `datetime` collaborator performs it).
* Fallible Python operations (`strptime`, `dict[...]` indexing, the
  construction of an `Invoice` from a response body) return `Option`;
  `None` models the raised exception.
* HTTP transport is an external collaborator: each remote call is
  represented by the status code and decoded body of its response, and
  the code surrounding the call is embedded as a pure function of those.
-/

namespace Infakt

/-- Python/JSON-like values: dictionaries (association lists), strings,
numbers (exact rationals), booleans and `None`. -/
inductive Val : Type
  | vdict : List (String × Val) → Val
  | vstr : String → Val
  | vnum : ℚ → Val
  | vbool : Bool → Val
  | vnone : Val

/-- First binding of a key in an association list, `none` when absent. -/
def lookupEntry : List (String × Val) → String → Option Val
  | [], _ => none
  | (k, v) :: rest, key => if k = key then some v else lookupEntry rest key

/-- Python `dict.get(key, default)` on a dictionary modelled as an
association list. -/
def dictGet (entries : List (String × Val)) (key : String) (dflt : Val) : Val :=
  match lookupEntry entries key with
  | some v => v
  | none => dflt

/-- Python `d[key]` indexing: `none` models the raised `KeyError`
(or `TypeError` when `d` is not a dict). -/
def jsonGet : Val → String → Option Val
  | .vdict entries, key => lookupEntry entries key
  | _, _ => none

/-- Is the key present?  (`jsonGet` succeeds.) -/
def hasKey (v : Val) (key : String) : Bool :=
  (jsonGet v key).isSome

/-- Splitting a list of characters on a separator character, matching
Python `str.split(sep)` for a one-character separator: the result always
has one more part than there are separators. -/
def splitChar (c : Char) : List Char → List (List Char)
  | [] => [[]]
  | x :: xs =>
    match splitChar c xs with
    | r :: rs => if x = c then [] :: r :: rs else (x :: r) :: rs
    | [] => if x = c then [[], []] else [[x]]

/-- `str.split(".")`-style splitting of a string on a one-character
separator (the only shape the source uses). -/
def splitOnChar (c : Char) (s : String) : List String :=
  (splitChar c s.data).map String.mk

/-- One step of the `reduce` inside `deep_get` (`client.py`):
`lambda d, key: d.get(key, default) if isinstance(d, dict) else default`. -/
def deepGetStep (dflt : Val) (d : Val) (key : String) : Val :=
  match d with
  | .vdict entries => dictGet entries key dflt
  | _ => dflt

/-- `deep_get(dictionary, keys, default)` from
`Client._get_default_from_config`: split the dotted path and fold the
step over the segments. -/
def deep_get (dictionary : Val) (keys : String) (dflt : Val) : Val :=
  (splitOnChar '.' keys).foldl (deepGetStep dflt) dictionary

/-- `Client._get_default_from_config(value)`: dotted-path lookup of
`"defaults." + value` in the configuration dictionary, with default
`None`. -/
def get_default_from_config (config_dict : Val) (value : String) : Val :=
  deep_get config_dict ("defaults" ++ "." ++ value) Val.vnone

/-- Specification-side walk of a nested mapping along a list of path
segments: `some` of the stored value when every segment resolves through
dictionaries, `none` when any intermediate node is missing or not a
dictionary. -/
def walkPath : Val → List String → Option Val
  | v, [] => some v
  | .vdict entries, k :: ks =>
    match lookupEntry entries k with
    | some v => walkPath v ks
    | none => none
  | _, _ :: _ => none

/-- `Config.validate_creds` (`client.py`): `creds.get("api_key", "")`
must have length exactly 40; `false` models the failed `assert`
(pydantic re-raises it as a validation error, the spec's `ConfigError`). -/
def validate_creds (creds : List (String × String)) : Bool :=
  let api_key := match creds.lookup "api_key" with
    | some v => v
    | none => ""
  api_key.length == 40

/-! ## Calendar dates -/

/-- A calendar date, as `datetime.date`: proleptic Gregorian, integer
year. -/
structure Date where
  year : Int
  month : Nat
  day : Nat
deriving DecidableEq

/-- Gregorian leap year, as `calendar.isleap`. -/
def isLeapYear (y : Int) : Bool :=
  y % 4 == 0 && (y % 100 != 0 || y % 400 == 0)

/-- Number of days of a month, as `calendar.monthrange(year, month)[1]`. -/
def daysInMonth (y : Int) (m : Nat) : Nat :=
  if m = 2 then (if isLeapYear y then 29 else 28)
  else if m = 4 ∨ m = 6 ∨ m = 9 ∨ m = 11 then 30
  else 31

/-- Is `(y, m, d)` a valid calendar date (as `datetime.date` accepts,
years restricted to the `datetime` range 1..9999)? -/
def validDate (y : Int) (m : Nat) (d : Nat) : Bool :=
  1 ≤ y && y ≤ 9999 && 1 ≤ m && m ≤ 12 && 1 ≤ d && d ≤ daysInMonth y m

/-- The day after a date (one step of `timedelta(days=1)` addition). -/
def nextDay (dt : Date) : Date :=
  if dt.day < daysInMonth dt.year dt.month then ⟨dt.year, dt.month, dt.day + 1⟩
  else if dt.month < 12 then ⟨dt.year, dt.month + 1, 1⟩
  else ⟨dt.year + 1, 1, 1⟩

/-- The day before a date (one step of `timedelta(days=1)` subtraction). -/
def prevDay (dt : Date) : Date :=
  if 1 < dt.day then ⟨dt.year, dt.month, dt.day - 1⟩
  else if 1 < dt.month then ⟨dt.year, dt.month - 1, daysInMonth dt.year (dt.month - 1)⟩
  else ⟨dt.year - 1, 12, 31⟩

/-- `date + timedelta(days=n)`: calendar-correct day addition, walking
one day at a time, crossing month and year boundaries. -/
def addDays (dt : Date) (n : Int) : Date :=
  if 0 ≤ n then nextDay^[n.toNat] dt else prevDay^[(-n).toNat] dt

/-- Python `str(n).zfill(2)`. -/
def zfill2 (s : String) : String :=
  if s.length < 2 then String.mk (List.replicate (2 - s.length) '0') ++ s else s

/-- The `f"{year}-{month}-{day}"` formatting used by the source after
`zfill(2)`-padding month and day. -/
def formatDate (dt : Date) : String :=
  toString dt.year ++ "-" ++ zfill2 (toString dt.month) ++ "-" ++ zfill2 (toString dt.day)

/-- Value of a decimal-digit character. -/
def digitVal (c : Char) : Nat := c.toNat - 48

/-- Accumulating parse of a digit string; `none` on a non-digit. -/
def digitsToNatAux : List Char → Nat → Option Nat
  | [], acc => some acc
  | c :: cs, acc =>
    if c.isDigit then digitsToNatAux cs (acc * 10 + digitVal c) else none

/-- Parse a non-empty all-digit string as a number. -/
def digitsToNat : List Char → Option Nat
  | [] => none
  | c :: cs => digitsToNatAux (c :: cs) 0

/-- `datetime.strptime(s, "%Y-%m-%d").date()`: split on `-`, read up to
four year digits and up to two month and day digits, and validate the
resulting calendar date (`none` models the raised `ValueError`). -/
def parseDate (s : String) : Option Date :=
  match splitOnChar '-' s with
  | [ys, ms, ds] =>
    if ys.length ≤ 4 ∧ ms.length ≤ 2 ∧ ds.length ≤ 2 then
      match digitsToNat ys.data, digitsToNat ms.data, digitsToNat ds.data with
      | some y, some m, some d =>
        if validDate (y : Int) m d then some ⟨(y : Int), m, d⟩ else none
      | _, _, _ => none
    else none
  | _ => none

/-- `Client._get_default_invoice_date`, as a function of `today`
(the source reads `datetime.date.today()`): resolve a target year and
month — December of the previous year in early January, January of the
same year in late January, the previous month before the 15th otherwise,
the current month from the 15th on — then take that month's last
calendar day and format `YYYY-MM-DD` with `zfill(2)` padding. -/
def get_default_invoice_date (today : Date) : String :=
  let first : Date := ⟨today.year, today.month, 1⟩
  let ym : Int × Nat :=
    if today.month = 1 then
      if today.day < 15 then (today.year - 1, 12)
      else (today.year, today.month)
    else
      (today.year,
        if today.day < 15 then (prevDay first).month
        else today.month)
  let day := daysInMonth ym.1 ym.2
  toString ym.1 ++ "-" ++ zfill2 (toString ym.2) ++ "-" ++ zfill2 (toString day)

/-- `Client._get_payment_date(invoice_date, payment_days)`: parse the
invoice date, add the payment days, format `YYYY-MM-DD`; `none` models
the `ValueError` raised by `strptime` on a malformed date. -/
def get_payment_date (invoice_date : String) (payment_days : Int) : Option String :=
  (parseDate invoice_date).map fun dt => formatDate (addDays dt payment_days)

/-! ## Day numbering: calendar-correctness of the day-by-day walk -/

/-- Days of year `y` falling strictly before month `m`. -/
def daysBeforeMonth (y : Int) : Nat → Nat
  | 0 => 0
  | 1 => 0
  | m + 2 => daysBeforeMonth y (m + 1) + daysInMonth y (m + 1)

/-- Proleptic Gregorian day number: day 1 is January 1 of year 1. -/
def toDayNumber (dt : Date) : Int :=
  365 * (dt.year - 1) + (dt.year - 1) / 4 - (dt.year - 1) / 100 + (dt.year - 1) / 400
    + daysBeforeMonth dt.year dt.month + dt.day

/-- Membership in the proleptic Gregorian calendar (no year bounds). -/
def inCalendar (dt : Date) : Prop :=
  1 ≤ dt.month ∧ dt.month ≤ 12 ∧ 1 ≤ dt.day ∧ dt.day ≤ daysInMonth dt.year dt.month

instance (dt : Date) : Decidable (inCalendar dt) := by
  unfold inCalendar; infer_instance

/-! ## The invoice record and the workflow operations -/

/-- `Invoice.__init__` (`invoice.py`): the read-only record built from a
decoded response body.  The three price fields are divided by 100 on
ingestion (minor-units to major-units); the remaining fields are stored
exactly as found in the body. -/
structure Invoice where
  id : Val
  number : Val
  invoice_date : Val
  sale_date : Val
  net_price : ℚ
  tax_price : ℚ
  gross_price : ℚ
  client_id : Val

/-- Python numeric coercion for `x / 100`: defined on numbers and on
booleans (`True / 100` is legal Python); `none` models the `TypeError`
raised for the remaining value shapes. -/
def asNum : Val → Option ℚ
  | .vnum q => some q
  | .vbool b => some (if b then 1 else 0)
  | _ => none

/-- `Invoice(json)` — `invoice.py` lines 5 to 13: look up the eight keys
in the constructor's order and divide the three price fields by 100;
`none` models the `KeyError` (missing key) or `TypeError` (non-numeric
price) the constructor raises. -/
def Invoice.ofJson (json : Val) : Option Invoice :=
  (jsonGet json "id").bind fun id =>
  (jsonGet json "number").bind fun number =>
  (jsonGet json "invoice_date").bind fun invoice_date =>
  (jsonGet json "sale_date").bind fun sale_date =>
  (jsonGet json "net_price").bind fun net =>
  (asNum net).bind fun netq =>
  (jsonGet json "tax_price").bind fun tax =>
  (asNum tax).bind fun taxq =>
  (jsonGet json "gross_price").bind fun gross =>
  (asNum gross).bind fun grossq =>
  (jsonGet json "client_id").bind fun client_id =>
  some { id := id, number := number, invoice_date := invoice_date,
         sale_date := sale_date, net_price := netq / 100,
         tax_price := taxq / 100, gross_price := grossq / 100,
         client_id := client_id }

/-- The keys `Invoice.__init__` reads from the response body. -/
def invoiceKeys : List String :=
  ["id", "number", "invoice_date", "sale_date",
   "net_price", "tax_price", "gross_price", "client_id"]

/-- One entry of the `services` array of the creation payload. -/
structure ServiceLine where
  name : Val
  gross_price : ℚ
  tax_symbol : Nat
  gtu_id : Val

/-- The inner `invoice` object of the `{"invoice": {...}}` creation
payload. -/
structure InvoicePayload where
  client_id : Val
  payment_method : String
  sale_date : String
  invoice_date : String
  payment_date : String
  services : List ServiceLine

/-- `Client.create_invoice` up to the HTTP call (lines 148–201): resolve
the defaults and build the creation payload.  `today` stands for
`datetime.date.today()` and `config_dict` for the freshly loaded
configuration dictionary; a `none` caller argument is Python's `None`
default.  A `none` result models the `ValueError` raised while deriving
the default payment date.  The `str(client_id)` coercion of the
transmitted value is not modelled: the resolved value is stored
unchanged. -/
def create_invoice_payload (today : Date) (config_dict : Val) (gross_price : ℚ)
    (service_name : Option String) (client_id : Option Int)
    (sale_date : Option String) (invoice_date : Option String)
    (payment_date : Option String) (payment_days : Int) (gtu_id : Option Int) :
    Option InvoicePayload :=
  let service_name_v : Val := match service_name with
    | some s => .vstr s
    | none => get_default_from_config config_dict "invoice.service.name"
  let client_id_v : Val := match client_id with
    | some n => .vnum n
    | none => get_default_from_config config_dict "invoice.client_id"
  let gtu_id_v : Val := match gtu_id with
    | some n => .vnum n
    | none => get_default_from_config config_dict "invoice.service.gtu_id"
  let default_invoice_date := get_default_invoice_date today
  match get_payment_date default_invoice_date payment_days with
  | none => none
  | some default_payment_date =>
    some
      { client_id := client_id_v
        payment_method := "transfer"
        sale_date := match sale_date with
          | some s => s
          | none => default_invoice_date
        invoice_date := match invoice_date with
          | some s => s
          | none => default_invoice_date
        payment_date := match payment_date with
          | some s => s
          | none => default_payment_date
        services := [{ name := service_name_v,
                       gross_price := gross_price * 100,
                       tax_symbol := 23,
                       gtu_id := gtu_id_v }] }

/-- `response.ok` of the `requests` collaborator: status code below
400. -/
def responseOk (status : Nat) : Bool := status < 400

/-- Does `response.raise_for_status()` raise?  The collaborator raises
`HTTPError` exactly for the 4xx and 5xx status codes. -/
def raisesForStatus (status : Nat) : Bool := 400 ≤ status && status < 600

/-- Outcome of `Client.create_invoice` after the HTTP call: the raised
`HTTPError` (the spec's `RemoteError`), a failed `Invoice` construction,
or the constructed record. -/
inductive CreateOutcome
  | remoteError (status : Nat)
  | invalidBody
  | created (inv : Invoice)

/-- The tail of `Client.create_invoice` (lines 202–209):
`response.raise_for_status()` then `Invoice(response.json())`, as a
function of the response's status code and decoded body. -/
def create_invoice_outcome (status : Nat) (body : Val) : CreateOutcome :=
  if raisesForStatus status then .remoteError status
  else
    match Invoice.ofJson body with
    | some inv => .created inv
    | none => .invalidBody

/-- `Client.delete_invoice` (lines 211–217): `return response.ok`, as a
function of the response's status code. -/
def delete_invoice (status : Nat) : Bool :=
  responseOk status

/-- The tail of `Client.send_invoice` (lines 92–95):
`if not response.ok: return False` then `return True`. -/
def send_invoice_result (status : Nat) : Bool :=
  if !responseOk status then false else true

/-- `Client.send_invoice`'s recipient resolution (lines 72–76):
`email if email is not None else self._get_default_from_config("invoice.client_email")`. -/
def resolve_email (config_dict : Val) (email : Option String) : Val :=
  match email with
  | some e => .vstr e
  | none => get_default_from_config config_dict "invoice.client_email"

/-- `Client.create_and_send_invoice` (lines 219–224): create, then send
to the new invoice's `id` and return the send result.  `send` abstracts
the send call as a function of the identifier passed to it; a `none`
result models the creation failure propagating, the send never
reached. -/
def create_and_send_invoice (outcome : CreateOutcome) (send : Val → Bool) : Option Bool :=
  match outcome with
  | .created inv => some (send inv.id)
  | .remoteError _ => none
  | .invalidBody => none

/-- The target year and month of the default-invoice-date policy, stated
as the claim words it: December of the previous year in early January,
January of the same year in late January, the previous month of the same
year before the 15th elsewhere, the current month otherwise. -/
def billingTarget (today : Date) : Int × Nat :=
  if today.month = 1 then
    (if today.day < 15 then (today.year - 1, 12) else (today.year, 1))
  else
    (if today.day < 15 then (today.year, today.month - 1)
     else (today.year, today.month))

theorem daysInMonth_ge (y : Int) (m : Nat) : 28 ≤ daysInMonth y m := by
  unfold daysInMonth
  split
  · split <;> omega
  · split <;> omega

theorem daysInMonth_le (y : Int) (m : Nat) : daysInMonth y m ≤ 31 := by
  unfold daysInMonth
  split
  · split <;> omega
  · split <;> omega

theorem daysBeforeMonth_succ (y : Int) (m : Nat) (h : 1 ≤ m) :
    daysBeforeMonth y (m + 1) = daysBeforeMonth y m + daysInMonth y m := by
  match m, h with
  | m + 1, _ => rfl

theorem daysBeforeMonth_one (y : Int) : daysBeforeMonth y 1 = 0 := rfl

theorem isLeapYear_iff (y : Int) :
    isLeapYear y = true ↔ (y % 4 = 0 ∧ (¬ y % 100 = 0 ∨ y % 400 = 0)) := by
  simp [isLeapYear, Bool.and_eq_true, Bool.or_eq_true, beq_iff_eq, bne_iff_ne]

theorem daysBeforeMonth_twelve (y : Int) :
    daysBeforeMonth y 12 = if isLeapYear y then 335 else 334 := by
  cases h : isLeapYear y <;> simp [daysBeforeMonth, daysInMonth, h]

theorem toDayNumber_nextDay (dt : Date) (h : inCalendar dt) :
    toDayNumber (nextDay dt) = toDayNumber dt + 1 := by
  obtain ⟨hm1, hm2, hd1, hd2⟩ := h
  unfold nextDay
  split
  · simp [toDayNumber]
    ring
  · split
    · have hday : dt.day = daysInMonth dt.year dt.month := by omega
      simp [toDayNumber, daysBeforeMonth_succ dt.year dt.month hm1, hday]
      ring
    · have hm : dt.month = 12 := by omega
      have hday : dt.day = 31 := by
        have h31 : daysInMonth dt.year dt.month = 31 := by rw [hm]; rfl
        omega
      have hbm := daysBeforeMonth_twelve dt.year
      by_cases hl : isLeapYear dt.year = true
      · rw [if_pos hl] at hbm
        rcases (isLeapYear_iff dt.year).mp hl with ⟨h4, h100 | h400⟩ <;>
          · simp only [toDayNumber, hm, hday, daysBeforeMonth_one, hbm]
            omega
      · rw [if_neg hl] at hbm
        have hfacts := (isLeapYear_iff dt.year).not.mp hl
        push_neg at hfacts
        by_cases h4 : dt.year % 4 = 0
        · rcases hfacts h4 with ⟨h100, h400⟩
          simp only [toDayNumber, hm, hday, daysBeforeMonth_one, hbm]
          omega
        · simp only [toDayNumber, hm, hday, daysBeforeMonth_one, hbm]
          omega

theorem toDayNumber_prevDay (dt : Date) (h : inCalendar dt) :
    toDayNumber (prevDay dt) = toDayNumber dt - 1 := by
  obtain ⟨hm1, hm2, hd1, hd2⟩ := h
  unfold prevDay
  split
  · simp only [toDayNumber]
    have : (1 : Nat) < dt.day := by omega
    push_cast [Nat.cast_sub (by omega : 1 ≤ dt.day)]
    ring
  · split
    · have hday : dt.day = 1 := by omega
      have hm : 2 ≤ dt.month := by omega
      have hs : dt.month - 1 + 1 = dt.month := by omega
      simp only [toDayNumber, hday]
      rw [← hs, daysBeforeMonth_succ dt.year (dt.month - 1) (by omega)]
      push_cast
      ring
    · have hday : dt.day = 1 := by omega
      have hm : dt.month = 1 := by omega
      have hbm := daysBeforeMonth_twelve (dt.year - 1)
      by_cases hl : isLeapYear (dt.year - 1) = true
      · rw [if_pos hl] at hbm
        rcases (isLeapYear_iff (dt.year - 1)).mp hl with ⟨h4, h100 | h400⟩ <;>
          · simp only [toDayNumber, hm, hday, daysBeforeMonth_one, hbm]
            omega
      · rw [if_neg hl] at hbm
        have hfacts := (isLeapYear_iff (dt.year - 1)).not.mp hl
        push_neg at hfacts
        by_cases h4 : (dt.year - 1) % 4 = 0
        · rcases hfacts h4 with ⟨h100, h400⟩
          simp only [toDayNumber, hm, hday, daysBeforeMonth_one, hbm]
          omega
        · simp only [toDayNumber, hm, hday, daysBeforeMonth_one, hbm]
          omega

theorem nextDay_inCalendar (dt : Date) (h : inCalendar dt) : inCalendar (nextDay dt) := by
  obtain ⟨hm1, hm2, hd1, hd2⟩ := h
  have h1 := daysInMonth_ge dt.year (dt.month + 1)
  have h2 := daysInMonth_ge (dt.year + 1) 1
  unfold nextDay inCalendar
  split
  · dsimp only
    omega
  · split
    · dsimp only
      omega
    · dsimp only
      omega

theorem prevDay_inCalendar (dt : Date) (h : inCalendar dt) : inCalendar (prevDay dt) := by
  obtain ⟨hm1, hm2, hd1, hd2⟩ := h
  have h1 := daysInMonth_ge dt.year (dt.month - 1)
  have h2 : daysInMonth (dt.year - 1) 12 = 31 := rfl
  unfold prevDay inCalendar
  split
  · dsimp only
    omega
  · split
    · dsimp only
      omega
    · dsimp only
      omega

theorem addDays_correct (dt : Date) (n : Int) (h : inCalendar dt) :
    inCalendar (addDays dt n) ∧ toDayNumber (addDays dt n) = toDayNumber dt + n := by
  unfold addDays
  split
  · rename_i hn
    generalize hk : n.toNat = k
    have hnk : n = (k : Int) := by omega
    subst hnk
    clear hk hn
    induction k with
    | zero =>
      simp only [Function.iterate_zero, id_eq]
      exact ⟨h, by simp⟩
    | succ k ih =>
      rw [Function.iterate_succ_apply']
      refine ⟨nextDay_inCalendar _ ih.1, ?_⟩
      rw [toDayNumber_nextDay _ ih.1, ih.2]
      push_cast
      ring
  · rename_i hn
    generalize hk : (-n).toNat = k
    have hnk : n = -(k : Int) := by omega
    subst hnk
    clear hk hn
    induction k with
    | zero =>
      simp only [Function.iterate_zero, id_eq]
      exact ⟨h, by simp⟩
    | succ k ih =>
      rw [Function.iterate_succ_apply']
      refine ⟨prevDay_inCalendar _ ih.1, ?_⟩
      rw [toDayNumber_prevDay _ ih.1, ih.2]
      push_cast
      ring

/-! ## Dotted-path lookup (C3) and credential validation (C4) -/

theorem splitChar_ne_nil (c : Char) (l : List Char) : splitChar c l ≠ [] := by
  cases l with
  | nil => simp [splitChar]
  | cons x xs =>
    simp only [splitChar]
    split <;> split <;> simp_all

theorem splitChar_append (c : Char) (xs ys : List Char) (h : c ∉ xs) :
    splitChar c (xs ++ c :: ys) = xs :: splitChar c ys := by
  induction xs with
  | nil =>
    simp only [List.nil_append, splitChar]
    cases hs : splitChar c ys with
    | nil => exact absurd hs (splitChar_ne_nil c ys)
    | cons r rs => simp [hs]
  | cons x xs ih =>
    have hx : ¬ x = c := fun e => h (by rw [e]; exact List.mem_cons_self _ _)
    have hmem : c ∉ xs := fun hc => h (List.mem_cons_of_mem _ hc)
    simp only [List.cons_append, splitChar, List.append_eq]
    rw [ih hmem]
    simp [hx]

theorem splitOnChar_dot_defaults (value : String) :
    splitOnChar '.' ("defaults" ++ "." ++ value) = "defaults" :: splitOnChar '.' value := by
  unfold splitOnChar
  have hdata : ("defaults" ++ "." ++ value).data = "defaults".data ++ '.' :: value.data := by
    show ("defaults".data ++ ['.']) ++ value.data = _
    rw [List.append_assoc]
    rfl
  rw [hdata, splitChar_append _ _ _ (by decide)]
  rfl

theorem foldl_deepGetStep_vnone (ks : List String) :
    ks.foldl (deepGetStep Val.vnone) Val.vnone = Val.vnone := by
  induction ks with
  | nil => rfl
  | cons k ks ih => simpa [deepGetStep] using ih

theorem foldl_deepGetStep_walkPath (ks : List String) (d : Val) :
    ks.foldl (deepGetStep Val.vnone) d = (walkPath d ks).getD Val.vnone := by
  induction ks generalizing d with
  | nil => cases d <;> rfl
  | cons k ks ih =>
    cases d with
    | vdict entries =>
      simp only [List.foldl_cons, deepGetStep, walkPath, dictGet]
      cases h : lookupEntry entries k with
      | some v => simp only [h, ih v]
      | none => simp only [h, foldl_deepGetStep_vnone, Option.getD_none]
    | vstr s => simp [deepGetStep, walkPath, foldl_deepGetStep_vnone]
    | vnum q => simp [deepGetStep, walkPath, foldl_deepGetStep_vnone]
    | vbool b => simp [deepGetStep, walkPath, foldl_deepGetStep_vnone]
    | vnone => simp [deepGetStep, walkPath, foldl_deepGetStep_vnone]

/-- C3: for every dotted path and every nested defaults mapping, the
lookup splits the path on `.`, walks the mapping one segment at a time,
returns the stored value when every segment resolves through mappings,
and returns the default `None` — rather than throwing — whenever an
intermediate node is missing or is not itself a mapping; and the
configuration entry point walks `"defaults"` followed by the path's
segments. -/
theorem deep_get_walkPath_characterization (defaults : Val) (path : String) :
    (∀ v, walkPath defaults (splitOnChar '.' path) = some v →
      deep_get defaults path Val.vnone = v) ∧
    (walkPath defaults (splitOnChar '.' path) = none →
      deep_get defaults path Val.vnone = Val.vnone) ∧
    (∀ config : Val, get_default_from_config config path =
      (walkPath config ("defaults" :: splitOnChar '.' path)).getD Val.vnone) := by
  refine ⟨?_, ?_, ?_⟩
  · intro v hv
    rw [deep_get, foldl_deepGetStep_walkPath, hv]
    rfl
  · intro hv
    rw [deep_get, foldl_deepGetStep_walkPath, hv]
    rfl
  · intro config
    rw [get_default_from_config, deep_get, splitOnChar_dot_defaults,
      foldl_deepGetStep_walkPath]

/-- C3 witness: on the mapping `{a: {b: 5}}`, the stored value is
returned for the path `a.b`, and the default `None` for a missing leaf,
a missing branch, and a path through a non-mapping node. -/
theorem deep_get_walkPath_characterization_witness :
    deep_get (Val.vdict [("a", Val.vdict [("b", Val.vnum 5)])]) "a.b" Val.vnone
        = Val.vnum 5 ∧
    deep_get (Val.vdict [("a", Val.vdict [("b", Val.vnum 5)])]) "a.c" Val.vnone
        = Val.vnone ∧
    deep_get (Val.vdict [("a", Val.vdict [("b", Val.vnum 5)])]) "x.b" Val.vnone
        = Val.vnone ∧
    deep_get (Val.vdict [("a", Val.vdict [("b", Val.vnum 5)])]) "a.b.c" Val.vnone
        = Val.vnone :=
  ⟨(deep_get_walkPath_characterization _ "a.b").1 (Val.vnum 5) rfl,
   (deep_get_walkPath_characterization _ "a.c").2.1 rfl,
   (deep_get_walkPath_characterization _ "x.b").2.1 rfl,
   (deep_get_walkPath_characterization _ "a.b.c").2.1 rfl⟩

/-- C4: validation of the credentials mapping succeeds exactly when an
`api_key` entry is present and is exactly 40 characters long; an absent
key (looked up as the empty string) or any other length fails. -/
theorem validate_creds_iff_length (creds : List (String × String)) :
    validate_creds creds = true ↔
      ∃ v, creds.lookup "api_key" = some v ∧ v.length = 40 := by
  unfold validate_creds
  cases h : creds.lookup "api_key" with
  | none => simp [h]
  | some v => simp [h]

/-- C4 witness: a 40-character key passes; an absent key and keys of
length 0, 39 and 41 fail. -/
theorem validate_creds_iff_length_witness :
    validate_creds [("api_key", "0123456789012345678901234567890123456789")] = true ∧
    validate_creds [] = false ∧
    validate_creds [("api_key", "")] = false ∧
    validate_creds [("api_key", "012345678901234567890123456789012345678")] = false ∧
    validate_creds [("api_key", "01234567890123456789012345678901234567890")] = false := by
  refine ⟨?_, ?_, ?_, ?_, ?_⟩
  · exact (validate_creds_iff_length _).mpr
      ⟨"0123456789012345678901234567890123456789", rfl, by decide⟩
  all_goals decide

/-! ## Default invoice date (C1) and payment date (C5) -/

theorem validDate_inCalendar (y : Int) (m d : Nat) (h : validDate y m d = true) :
    inCalendar ⟨y, m, d⟩ := by
  simp only [validDate, Bool.and_eq_true, decide_eq_true_eq] at h
  exact ⟨h.1.1.1.2, h.1.1.2, h.1.2, h.2⟩

/-- C1: for every valid `today`, the default invoice date is the last
calendar day of the billing-target month — December of the previous year
in early January, January of the same year in late January, the previous
month of the same year before the 15th in other months, the current
month from the 15th on — formatted `YYYY-MM-DD`. -/
theorem get_default_invoice_date_spec (today : Date)
    (h : validDate today.year today.month today.day = true) :
    get_default_invoice_date today =
      formatDate ⟨(billingTarget today).1, (billingTarget today).2,
        daysInMonth (billingTarget today).1 (billingTarget today).2⟩ := by
  simp only [validDate, Bool.and_eq_true, decide_eq_true_eq] at h
  obtain ⟨⟨⟨⟨⟨hy1, hy2⟩, hm1⟩, hm2⟩, hd1⟩, hd2⟩ := h
  unfold get_default_invoice_date billingTarget formatDate
  by_cases h1 : today.month = 1
  · by_cases h15 : today.day < 15 <;> simp [h1, h15]
  · have hprev : (prevDay ⟨today.year, today.month, 1⟩).month = today.month - 1 := by
      unfold prevDay
      dsimp only
      rw [if_neg (by omega), if_pos (by omega)]
    by_cases h15 : today.day < 15 <;> simp [h1, h15, hprev]

/-- C1 witness: the five concrete dates of the claim, day 15 included. -/
theorem get_default_invoice_date_spec_witness :
    (validDate 2024 1 10 = true ∧ get_default_invoice_date ⟨2024, 1, 10⟩ = "2023-12-31") ∧
    (validDate 2024 1 20 = true ∧ get_default_invoice_date ⟨2024, 1, 20⟩ = "2024-01-31") ∧
    (validDate 2024 3 10 = true ∧ get_default_invoice_date ⟨2024, 3, 10⟩ = "2024-02-29") ∧
    (validDate 2024 3 20 = true ∧ get_default_invoice_date ⟨2024, 3, 20⟩ = "2024-03-31") ∧
    (validDate 2024 3 15 = true ∧ get_default_invoice_date ⟨2024, 3, 15⟩ = "2024-03-31") :=
  ⟨⟨by decide, (get_default_invoice_date_spec ⟨2024, 1, 10⟩ (by decide)).trans (by decide)⟩,
   ⟨by decide, (get_default_invoice_date_spec ⟨2024, 1, 20⟩ (by decide)).trans (by decide)⟩,
   ⟨by decide, (get_default_invoice_date_spec ⟨2024, 3, 10⟩ (by decide)).trans (by decide)⟩,
   ⟨by decide, (get_default_invoice_date_spec ⟨2024, 3, 20⟩ (by decide)).trans (by decide)⟩,
   ⟨by decide, (get_default_invoice_date_spec ⟨2024, 3, 15⟩ (by decide)).trans (by decide)⟩⟩

theorem parseDate_inCalendar (s : String) (dt : Date) (h : parseDate s = some dt) :
    inCalendar dt := by
  unfold parseDate at h
  split at h
  · split at h
    · split at h
      · split at h
        · cases h
          apply validDate_inCalendar
          assumption
        · exact absurd h (by simp)
      · exact absurd h (by simp)
    · exact absurd h (by simp)
  · exact absurd h (by simp)

/-- C5: for every invoice-date string the `strptime` model accepts and
every integer number of payment days, the payment date is the parsed
date advanced by that many days — calendar-correct month and year
carrying, witnessed by the day-number identity — formatted `YYYY-MM-DD`
with zero-padded month and day. -/
theorem get_payment_date_spec (s : String) (dt : Date) (payment_days : Int)
    (h : parseDate s = some dt) :
    get_payment_date s payment_days = some (formatDate (addDays dt payment_days)) ∧
    inCalendar (addDays dt payment_days) ∧
    toDayNumber (addDays dt payment_days) = toDayNumber dt + payment_days := by
  have hadd := addDays_correct dt payment_days (parseDate_inCalendar s dt h)
  exact ⟨by simp [get_payment_date, h], hadd.1, hadd.2⟩

/-- C5 witness: `paymentDate("2024-01-31", 14)` is `"2024-02-14"`. -/
theorem get_payment_date_spec_witness :
    parseDate "2024-01-31" = some ⟨2024, 1, 31⟩ ∧
    get_payment_date "2024-01-31" 14 = some "2024-02-14" :=
  ⟨by decide, by
    rw [(get_payment_date_spec "2024-01-31" ⟨2024, 1, 31⟩ 14 (by decide)).1]
    rfl⟩

/-! ## Payload construction (C2, C6) -/

/-- C6: in the creation payload, `sale_date` and `invoice_date` each
fall back to the computed default invoice date exactly when omitted, and
`payment_date` falls back to the payment date derived from that same
default invoice date — not from any caller-supplied `invoice_date`
override; explicitly supplied values are used unchanged. -/
theorem create_invoice_payload_defaults (today : Date) (config_dict : Val)
    (gross_price : ℚ) (service_name : Option String) (client_id : Option Int)
    (sale_date invoice_date payment_date : Option String) (payment_days : Int)
    (gtu_id : Option Int) (dp : String)
    (h : get_payment_date (get_default_invoice_date today) payment_days = some dp) :
    ∃ p, create_invoice_payload today config_dict gross_price service_name client_id
        sale_date invoice_date payment_date payment_days gtu_id = some p ∧
      p.sale_date = sale_date.getD (get_default_invoice_date today) ∧
      p.invoice_date = invoice_date.getD (get_default_invoice_date today) ∧
      p.payment_date = payment_date.getD dp := by
  simp only [create_invoice_payload]
  rw [h]
  refine ⟨_, rfl, ?_, ?_, ?_⟩
  · cases sale_date <;> rfl
  · cases invoice_date <;> rfl
  · cases payment_date <;> rfl

/-- C6 witness: on 2024-03-20 the default invoice date is `2024-03-31`
and the derived payment date `2024-04-14`; with an explicit
`invoice_date` override and the other two dates omitted, the payload
keeps the override while both fallbacks still come from the default
invoice date. -/
theorem create_invoice_payload_defaults_witness :
    get_payment_date (get_default_invoice_date ⟨2024, 3, 20⟩) 14 = some "2024-04-14" ∧
    ∃ p, create_invoice_payload ⟨2024, 3, 20⟩ Val.vnone 286.15 none none
        none (some "2024-03-25") none 14 none = some p ∧
      p.sale_date = (none : Option String).getD (get_default_invoice_date ⟨2024, 3, 20⟩) ∧
      p.invoice_date = (some "2024-03-25").getD (get_default_invoice_date ⟨2024, 3, 20⟩) ∧
      p.payment_date = (none : Option String).getD "2024-04-14" :=
  ⟨rfl, create_invoice_payload_defaults ⟨2024, 3, 20⟩ Val.vnone 286.15 none none none
    (some "2024-03-25") none 14 none "2024-04-14" rfl⟩

/-- C2: the transmitted service entry carries the caller's major-unit
gross amount multiplied by 100, and an `Invoice` built from a response
stores each of the three price fields divided by 100. -/
theorem minor_units_conversion (a : ℚ) (today : Date) (config_dict : Val)
    (service_name : Option String) (client_id : Option Int)
    (sale_date invoice_date payment_date : Option String) (payment_days : Int)
    (gtu_id : Option Int) (p : InvoicePayload) (json : Val) (inv : Invoice)
    (n t g : ℚ) :
    (create_invoice_payload today config_dict a service_name client_id sale_date
        invoice_date payment_date payment_days gtu_id = some p →
      ∃ sl, p.services = [sl] ∧ sl.gross_price = a * 100) ∧
    (Invoice.ofJson json = some inv →
      (jsonGet json "net_price" = some (Val.vnum n) → inv.net_price = n / 100) ∧
      (jsonGet json "tax_price" = some (Val.vnum t) → inv.tax_price = t / 100) ∧
      (jsonGet json "gross_price" = some (Val.vnum g) → inv.gross_price = g / 100)) := by
  constructor
  · intro hp
    simp only [create_invoice_payload] at hp
    split at hp
    · exact absurd hp (by simp)
    · cases hp
      exact ⟨_, rfl, rfl⟩
  · intro hj
    rw [Invoice.ofJson] at hj
    simp only [Option.bind_eq_some, Option.pure_def, Option.some.injEq] at hj
    obtain ⟨vid, hid, vnumb, hnumb, vidt, hidt, vsd, hsd, vnet, hnet, qnet, hqnet,
      vtax, htax, qtax, hqtax, vgross, hgross, qgross, hqgross, vcid, hcid, hinv⟩ := hj
    subst hinv
    refine ⟨?_, ?_, ?_⟩ <;> intro hkey
    · rw [hnet] at hkey
      simp only [Option.some.injEq] at hkey
      subst hkey
      simp only [asNum, Option.some.injEq] at hqnet
      subst hqnet
      rfl
    · rw [htax] at hkey
      simp only [Option.some.injEq] at hkey
      subst hkey
      simp only [asNum, Option.some.injEq] at hqtax
      subst hqtax
      rfl
    · rw [hgross] at hkey
      simp only [Option.some.injEq] at hkey
      subst hkey
      simp only [asNum, Option.some.injEq] at hqgross
      subst hqgross
      rfl

/-- C2 witness: `286.15` is transmitted as `28615`, and a response body
carrying `28615`, `23264` and `5351` minor-units yields `286.15`,
`232.64` and `53.51`. -/
theorem minor_units_conversion_witness :
    (∃ p, create_invoice_payload ⟨2024, 3, 20⟩ Val.vnone 286.15 none none none none
        none 14 none = some p ∧ ∃ sl, p.services = [sl] ∧ sl.gross_price = 28615) ∧
    (∃ inv, Invoice.ofJson (Val.vdict [("id", Val.vnum 1), ("number", Val.vstr "1/2024"),
        ("invoice_date", Val.vstr "2024-03-31"), ("sale_date", Val.vstr "2024-03-31"),
        ("net_price", Val.vnum 23264), ("tax_price", Val.vnum 5351),
        ("gross_price", Val.vnum 28615), ("client_id", Val.vnum 7)]) = some inv ∧
      inv.gross_price = 286.15 ∧ inv.net_price = 232.64 ∧ inv.tax_price = 53.51) := by
  constructor
  · obtain ⟨p, hp⟩ : ∃ p, create_invoice_payload ⟨2024, 3, 20⟩ Val.vnone 286.15 none none
        none none none 14 none = some p := ⟨_, rfl⟩
    obtain ⟨sl, hsl, hg⟩ := (minor_units_conversion 286.15 ⟨2024, 3, 20⟩ Val.vnone none
        none none none none 14 none p Val.vnone
        ⟨Val.vnone, Val.vnone, Val.vnone, Val.vnone, 0, 0, 0, Val.vnone⟩ 0 0 0).1 hp
    refine ⟨p, hp, sl, hsl, ?_⟩
    rw [hg]
    norm_num
  · obtain ⟨inv, hinv⟩ : ∃ i, Invoice.ofJson (Val.vdict [("id", Val.vnum 1),
        ("number", Val.vstr "1/2024"), ("invoice_date", Val.vstr "2024-03-31"),
        ("sale_date", Val.vstr "2024-03-31"), ("net_price", Val.vnum 23264),
        ("tax_price", Val.vnum 5351), ("gross_price", Val.vnum 28615),
        ("client_id", Val.vnum 7)]) = some i := ⟨_, rfl⟩
    have h2 := (minor_units_conversion 286.15 ⟨2024, 3, 20⟩ Val.vnone none none none
        none none 14 none ⟨Val.vnone, "", "", "", "", []⟩ (Val.vdict [("id", Val.vnum 1),
        ("number", Val.vstr "1/2024"), ("invoice_date", Val.vstr "2024-03-31"),
        ("sale_date", Val.vstr "2024-03-31"), ("net_price", Val.vnum 23264),
        ("tax_price", Val.vnum 5351), ("gross_price", Val.vnum 28615),
        ("client_id", Val.vnum 7)]) inv 23264 5351 28615).2 hinv
    refine ⟨inv, hinv, ?_, ?_, ?_⟩
    · rw [h2.2.2 rfl]
      norm_num
    · rw [h2.1 rfl]
      norm_num
    · rw [h2.2.1 rfl]
      norm_num

/-! ## Error policy (C7, C8, C9) and the invoice record (C10) -/

/-- C7: the creation call raises on every non-success HTTP status — the
4xx/5xx outcome is the raised error, never a boolean — and an `Invoice`
is returned only when no error status occurred and the body parsed. -/
theorem create_invoice_raise_on_error (status : Nat) (body : Val) :
    (400 ≤ status ∧ status < 600 →
      create_invoice_outcome status body = CreateOutcome.remoteError status) ∧
    (∀ inv, create_invoice_outcome status body = CreateOutcome.created inv →
      ¬(400 ≤ status ∧ status < 600) ∧ Invoice.ofJson body = some inv) := by
  constructor
  · intro ⟨h1, h2⟩
    simp [create_invoice_outcome, raisesForStatus, h1, h2]
  · intro inv h
    unfold create_invoice_outcome at h
    split at h
    · simp at h
    · rename_i hr
      constructor
      · intro ⟨h1, h2⟩
        exact hr (by simp [raisesForStatus, h1, h2])
      · split at h
        · rename_i inv0 hinv0
          cases h
          exact hinv0
        · simp at h

/-- C7 witness: status 422 yields the raised error; status 200 with a
complete body yields the constructed invoice. -/
theorem create_invoice_raise_on_error_witness :
    create_invoice_outcome 422 Val.vnone = CreateOutcome.remoteError 422 ∧
    ∃ inv, create_invoice_outcome 200 (Val.vdict [("id", Val.vnum 1),
        ("number", Val.vstr "1/2024"), ("invoice_date", Val.vstr "2024-03-31"),
        ("sale_date", Val.vstr "2024-03-31"), ("net_price", Val.vnum 23264),
        ("tax_price", Val.vnum 5351), ("gross_price", Val.vnum 28615),
        ("client_id", Val.vnum 7)]) = CreateOutcome.created inv ∧
      ¬(400 ≤ 200 ∧ 200 < 600) := by
  constructor
  · exact (create_invoice_raise_on_error 422 Val.vnone).1 (by decide)
  · obtain ⟨inv, hinv⟩ : ∃ i, create_invoice_outcome 200 (Val.vdict [("id", Val.vnum 1),
        ("number", Val.vstr "1/2024"), ("invoice_date", Val.vstr "2024-03-31"),
        ("sale_date", Val.vstr "2024-03-31"), ("net_price", Val.vnum 23264),
        ("tax_price", Val.vnum 5351), ("gross_price", Val.vnum 28615),
        ("client_id", Val.vnum 7)]) = CreateOutcome.created i := ⟨_, rfl⟩
    exact ⟨inv, hinv, ((create_invoice_raise_on_error 200 _).2 inv hinv).1⟩

/-- C8 counterexample: a 304 response is not a 2xx success, yet both the
delete and the send results are `true`, not `false`: `response.ok` is
"status below 400", so a 3xx response also reports `true`. -/
theorem delete_send_nonsuccess_counterexample :
    (304 < 200 ∨ 299 < 304) ∧ delete_invoice 304 = true ∧
      send_invoice_result 304 = true := by
  decide

/-- C8 (amended): the delete and send operations never raise: each is a
total boolean result that is `true` exactly when the response's status
code is below 400 (`response.ok`) and `false` otherwise — every 4xx/5xx
yields `false`, while 3xx responses also yield `true`. -/
theorem delete_send_soft_failure (status : Nat) :
    (delete_invoice status = true ↔ status < 400) ∧
    (send_invoice_result status = true ↔ status < 400) := by
  constructor
  · simp [delete_invoice, responseOk]
  · unfold send_invoice_result responseOk
    cases h : decide (status < 400) <;> simp_all

/-- C9: creation composes before send — the send consumes the created
invoice's identifier — and when creation does not produce an invoice the
failure propagates and the send is never attempted. -/
theorem create_and_send_composition (outcome : CreateOutcome) (send : Val → Bool) :
    (∀ inv, outcome = CreateOutcome.created inv →
      create_and_send_invoice outcome send = some (send inv.id)) ∧
    (∀ status, outcome = CreateOutcome.remoteError status →
      create_and_send_invoice outcome send = none) ∧
    (outcome = CreateOutcome.invalidBody →
      create_and_send_invoice outcome send = none) := by
  refine ⟨?_, ?_, ?_⟩
  · intro inv h
    subst h
    rfl
  · intro s h
    subst h
    rfl
  · intro h
    subst h
    rfl

/-- C9 witness: a created invoice is sent (using its identifier); a
creation failure yields no send result at all. -/
theorem create_and_send_composition_witness :
    create_and_send_invoice (CreateOutcome.created ⟨Val.vnum 1, Val.vnone, Val.vnone,
        Val.vnone, 0, 0, 0, Val.vnone⟩) (fun _ => true) = some true ∧
    create_and_send_invoice (CreateOutcome.remoteError 500) (fun _ => true) = none ∧
    create_and_send_invoice CreateOutcome.invalidBody (fun _ => true) = none :=
  ⟨(create_and_send_composition (CreateOutcome.created ⟨Val.vnum 1, Val.vnone, Val.vnone,
      Val.vnone, 0, 0, 0, Val.vnone⟩) (fun _ => true)).1 _ rfl,
   (create_and_send_composition (CreateOutcome.remoteError 500) (fun _ => true)).2.1 500 rfl,
   (create_and_send_composition CreateOutcome.invalidBody (fun _ => true)).2.2 rfl⟩

theorem ofJson_some_keys (json : Val) (inv : Invoice)
    (h : Invoice.ofJson json = some inv) :
    (jsonGet json "id").isSome = true ∧ (jsonGet json "number").isSome = true ∧
    (jsonGet json "invoice_date").isSome = true ∧ (jsonGet json "sale_date").isSome = true ∧
    (jsonGet json "net_price").isSome = true ∧ (jsonGet json "tax_price").isSome = true ∧
    (jsonGet json "gross_price").isSome = true ∧ (jsonGet json "client_id").isSome = true := by
  rw [Invoice.ofJson] at h
  simp only [Option.bind_eq_some, Option.pure_def, Option.some.injEq] at h
  obtain ⟨vid, hid, vnumb, hnumb, vidt, hidt, vsd, hsd, vnet, hnet, qnet, hqnet,
    vtax, htax, qtax, hqtax, vgross, hgross, qgross, hqgross, vcid, hcid, hinv⟩ := h
  exact ⟨by simp [hid], by simp [hnumb], by simp [hidt], by simp [hsd],
    by simp [hnet], by simp [htax], by simp [hgross], by simp [hcid]⟩

/-- C10: constructing an `Invoice` from a response body succeeds only
when all eight keys are present, and fails — a lookup error, not a
partially-filled record — as soon as any of them is absent. -/
theorem invoice_requires_all_keys (json : Val) :
    (∀ inv, Invoice.ofJson json = some inv →
      ∀ k ∈ invoiceKeys, (jsonGet json k).isSome = true) ∧
    (∀ k ∈ invoiceKeys, jsonGet json k = none → Invoice.ofJson json = none) := by
  constructor
  · intro inv h k hk
    have hc := ofJson_some_keys json inv h
    fin_cases hk
    · exact hc.1
    · exact hc.2.1
    · exact hc.2.2.1
    · exact hc.2.2.2.1
    · exact hc.2.2.2.2.1
    · exact hc.2.2.2.2.2.1
    · exact hc.2.2.2.2.2.2.1
    · exact hc.2.2.2.2.2.2.2
  · intro k hk hnone
    cases ho : Invoice.ofJson json with
    | none => rfl
    | some inv =>
      have hc := ofJson_some_keys json inv ho
      fin_cases hk <;> simp [hnone] at hc

end Infakt
